import Mathlib

/-!
Shallow embedding of the Task Reconciliation Engine of the
todoist-taskwarrior repository (source files `todoist_taskwarrior/cli.py`
and `todoist_taskwarrior/gateways.py`), together with theorems settling
the specification claims about it.

Conventions of the embedding:
* A Todoist task (`RTask`) and a TaskWarrior task (`LocalTask`) are records
  holding the fields the reconciliation code reads or writes.
* The TaskWarrior store is a list of `LocalTask`s; `taskw` operations
  (`get_task`, `task_done`, `task_add`) become pure functions on it.
* Timestamps and dates are kept abstract as their source strings.
* The helper modules `utils`, `io`, `validation`, `errors` are not part of
  the given sources; the helpers the claims need are modelled from the
  spec, each marked `Modelled from the spec:` in its doc comment.
* Python's positional-call protocol matters for the `map_to_tw` call site
  in `migrate` (the call supplies fewer arguments than the `def` requires),
  so calls across that boundary go through `pyCall`, which raises
  `TypeError` on an argument-count mismatch exactly as Python does.
-/

namespace TodoistTW

/-- A Todoist due specification: raw string, parsed date, recurrence flag. -/
structure Due where
  string : String
  date : String
  is_recurring : Bool
deriving Repr, DecidableEq

/-- A Todoist task, holding the fields read by the reconciliation code. -/
structure RTask where
  id : Nat
  content : String
  project_id : Nat
  priority : Nat
  labels : List Nat
  date_added : String
  due : Option Due
  checked : Nat
deriving Repr, DecidableEq

/-- A TaskWarrior task: `tw_id` is the manager-native id, `todoist_id` the
foreign key written by the migration (`uda.todoist_id`). -/
structure LocalTask where
  tw_id : Nat
  description : String
  project : String
  tags : List String
  priority : String
  entry : String
  due : Option String
  recur : Option String
  status : String
  todoist_id : Option Nat
deriving Repr, DecidableEq

/-- The TaskWarrior store. -/
abbrev Store := List LocalTask

/-- A Todoist project record (`name`, `parent_id`). -/
structure Project where
  name : String
  parent_id : Option Nat
deriving Repr, DecidableEq

/-- An operator-supplied mapping table (`--map-project` / `--map-tag`). -/
abbrev MapTable := List (String × String)

/-- `TW_STATUS_PENDING` from cli.py. -/
def TW_STATUS_PENDING : String := "pending"

/-- `TW_STATUS_COMPLETED` from cli.py. -/
def TW_STATUS_COMPLETED : String := "completed"

/-- Modelled from the spec: `utils.try_map` (absent from the sources)
applies a mapping table by exact string match; absence of a match leaves
the value unchanged; a match yields the destination, which may be the
empty string, meaning unset/remove. -/
def try_map (m : MapTable) (v : String) : String :=
  match m.lookup v with
  | some d => d
  | none => v

/-- Modelled from the spec: `utils.parse_priority` (absent from the
sources), the fixed ordinal lookup from the source scale 1-4 to the local
three levels plus none. -/
def parse_priority (p : Nat) : String :=
  if p = 4 then "H" else if p = 3 then "M" else if p = 2 then "L" else ""

/-- Modelled from the spec: `utils.parse_date` (absent from the sources)
parses the source creation timestamp into the destination representation;
dates are kept abstract as their source strings. -/
def parse_date (s : String) : String := s

/-- Modelled from the spec: `utils.parse_due` (absent from the sources)
takes the date component of the due specification when one is present. -/
def parse_due : Option Due → Option String
  | none => none
  | some d => some d.date

/-- Modelled from the spec: `utils.maybe_quote_ws` (absent from the
sources) quotes a project name containing whitespace. -/
def maybe_quote_ws (s : String) : String :=
  if s.data.any (fun c => c = ' ') then "\x22" ++ s ++ "\x22" else s

/-- Errors of the field-mapping path. -/
inductive MapErr
  | projectWalkFailed
  | promptUnavailable
deriving Repr, DecidableEq

/-- The `errors.UnsupportedRecurrence` signal. -/
inductive RecurErr
  | unsupportedRecurrence
deriving Repr, DecidableEq

/-- Modelled from the spec: `utils.parse_recur` (absent from the sources)
parses the due specification's recurrence string into the destination
grammar, given as a partial translation `translate`; a recurrence string
the destination grammar cannot express signals `UnsupportedRecurrence`. -/
def parse_recur (translate : String → Option String) :
    Option Due → Except RecurErr (Option String)
  | none => Except.ok none
  | some d =>
    if d.is_recurring then
      match translate d.string with
      | some r => Except.ok (some r)
      | none => Except.error RecurErr.unsupportedRecurrence
    else Except.ok none

/-- Modelled from the spec: `io.prompt` (absent from the sources) in an
interactive context returns the operator's validated reply; with no
interactive context available the prompt is a fatal error. -/
def prompt_recur (promptReply : Option String) : Except MapErr String :=
  match promptReply with
  | some r => Except.ok r
  | none => Except.error MapErr.promptUnavailable

/-- `parse_recur_or_prompt` from cli.py: try `utils.parse_recur`; on
`UnsupportedRecurrence`, report and fall back to the interactive prompt. -/
def parse_recur_or_prompt (translate : String → Option String)
    (promptReply : Option String) (due : Option Due) :
    Except MapErr (Option String) :=
  match parse_recur translate due with
  | Except.ok r => Except.ok r
  | Except.error RecurErr.unsupportedRecurrence =>
    match prompt_recur promptReply with
    | Except.ok r => Except.ok (some r)
    | Except.error e => Except.error e

/-- The external collaborators and modelling parameters threaded through
the mapper: the Todoist project and label caches, the destination
recurrence grammar, the interactive context, and fuel bounding the
unbounded ancestor `while` loop. -/
structure Env where
  projects : Nat → Option Project
  labels : Nat → String
  translate : String → Option String
  promptReply : Option String
  fuel : Nat

/-- The `while p['parent_id']` loop body of `project_name_from_todoist`:
resolve the parent, insert it at the front of the hierarchy. `none` means
the Python loop crashed on a missing parent or did not terminate within
`fuel` steps. -/
def hierarchy_loop (projects : Nat → Option Project) :
    Nat → Project → List Project → Option (List Project)
  | 0, _, _ => none
  | fuel + 1, p, acc =>
    match p.parent_id with
    | none => some acc
    | some pid =>
      match projects pid with
      | none => none
      | some q => hierarchy_loop projects fuel q (q :: acc)

/-- `project_name_from_todoist` from cli.py: resolve the project, walk the
ancestor chain collecting a hierarchy, join the names with a period, then
apply the project mapping table to the joined name; an unresolvable
project id leaves the name empty and skips the mapping. -/
def project_name_from_todoist (projects : Nat → Option Project) (fuel : Nat)
    (map_project : MapTable) (project_id : Nat) : Option String :=
  match projects project_id with
  | none => some ""
  | some p =>
    match hierarchy_loop projects fuel p [p] with
    | none => none
    | some h => some (try_map map_project (String.intercalate "." (h.map Project.name)))

/-- The tag computation of `map_to_tw` in cli.py: for each label id on the
task, resolve the label name and apply the tag mapping table. -/
def map_to_tw_tags (labels : Nat → String) (map_tag : MapTable) (t : RTask) :
    List String :=
  t.labels.map (fun lid => try_map map_tag (labels lid))

/-- The LocalTask creation payload produced by `map_to_tw`. -/
structure TwData where
  tid : Nat
  name : String
  project : String
  priority : String
  entry : String
  due : Option String
  recur : Option String
  tags : List String
deriving Repr, DecidableEq

/-- `map_to_tw` from cli.py: map a Todoist task to the TaskWarrior
creation payload. -/
def map_to_tw (env : Env) (map_project map_tag : MapTable) (t : RTask) :
    Except MapErr TwData :=
  match project_name_from_todoist env.projects env.fuel map_project t.project_id with
  | none => Except.error MapErr.projectWalkFailed
  | some pname =>
    match parse_recur_or_prompt env.translate env.promptReply t.due with
    | Except.error e => Except.error e
    | Except.ok recur =>
      Except.ok {
        tid := t.id
        name := t.content
        project := maybe_quote_ws pname
        priority := parse_priority t.priority
        entry := parse_date t.date_added
        due := parse_due t.due
        recur := recur
        tags := map_to_tw_tags env.labels map_tag t
      }

/-- `get_task` from cli.py: look a task up by the `todoist_id` foreign
key (`taskwarrior.get_task(todoist_id=tid)`). -/
def get_task (s : Store) (tid : Nat) : Option LocalTask :=
  s.find? (fun tw => tw.todoist_id == some tid)

/-- `taskwarrior.task_done(id=...)`: mark the task with the given
manager-native id completed. -/
def task_done (s : Store) (twid : Nat) : Store :=
  s.map (fun tw =>
    if tw.tw_id = twid then { tw with status := TW_STATUS_COMPLETED } else tw)

/-- `close_if_needed` from cli.py: close the existing TaskWarrior task
when it is closed on Todoist; returns the updated store and whether the
task was closed. -/
def close_if_needed (s : Store) (tw : LocalTask) (t : RTask) : Store × Bool :=
  if t.checked = 1 ∧ tw.status = TW_STATUS_PENDING then
    (task_done s tw.tw_id, true)
  else (s, false)

/-- `add_task` from cli.py (`taskwarrior.task_add`): append a pending task
built from the payload, carrying the `todoist_id` foreign key; the
manager assigns the native id. -/
def add_task (s : Store) (d : TwData) : Store :=
  s ++ [{
    tw_id := s.length + 1
    description := d.name
    project := d.project
    tags := d.tags
    priority := d.priority
    entry := d.entry
    due := d.due
    recur := d.recur
    status := TW_STATUS_PENDING
    todoist_id := some d.tid }]

/-- `UpdateData`: the keys the gateway update writes
(`"description due project".split()` in gateways.py). -/
structure UpdateData where
  description : String
  due : Option String
  project : String
deriving Repr, DecidableEq

/-- `TaskWarrior.update` from gateways.py: overwrite the task's
description, due and project fields from `data`, then store it. -/
def TW_update (task : LocalTask) (data : UpdateData) : LocalTask :=
  { task with
    description := data.description
    due := data.due
    project := data.project }

/-- Errors terminating a migrate run. -/
inductive RunErr
  | typeError
  | mapFailed (e : MapErr)
deriving Repr, DecidableEq

/-- The number of required positional parameters in the `def` line of
`map_to_tw` in cli.py: `task`, `map_project`, `map_tag`. -/
def map_to_tw_paramCount : Nat := 3

/-- The number of positional arguments supplied at the call site in
`migrate` in cli.py: `data = map_to_tw(task)`. -/
def migrate_callArgCount : Nat := 1

/-- Python's positional-call protocol: calling a function whose `def`
lists `paramCount` required parameters with `argCount` supplied arguments
raises `TypeError` unless the counts agree. -/
def pyCall (paramCount argCount : Nat) (body : Unit → α) : Except RunErr α :=
  if argCount = paramCount then Except.ok (body ()) else Except.error RunErr.typeError

/-- The per-task loop of `migrate` in cli.py (non-interactive): an already
mapped task is closed if needed and skipped; otherwise the payload call
`map_to_tw(task)` is made (through the Python call protocol) and the task
added. The run stops at the first uncaught error, keeping the effects of
the tasks already processed. -/
def migrateRun (env : Env) (map_project map_tag : MapTable) :
    List RTask → Store → Store × Option RunErr
  | [], s => (s, none)
  | t :: ts, s =>
    match get_task s t.id with
    | some tw => migrateRun env map_project map_tag ts (close_if_needed s tw t).1
    | none =>
      match pyCall map_to_tw_paramCount migrate_callArgCount
          (fun _ => map_to_tw env map_project map_tag t) with
      | Except.error e => (s, some e)
      | Except.ok (Except.error e) => (s, some (RunErr.mapFailed e))
      | Except.ok (Except.ok d) => migrateRun env map_project map_tag ts (add_task s d)

/-- Events emitted by the Completion Propagator toward Todoist. -/
inductive PropEvent
  | close (id : Nat)
  | commit
  | sync
deriving Repr, DecidableEq

/-- `close_todoist_tasks` from cli.py: for each Todoist task, if the
TaskWarrior task with its id exists, is completed, and the Todoist task is
not checked, issue a remote close; after the loop, commit and sync once.
The TaskWarrior store is returned unchanged alongside the remote events. -/
def close_todoist_tasks (s : Store) : List RTask → Store × List PropEvent
  | [] => (s, [PropEvent.commit, PropEvent.sync])
  | t :: ts =>
    match get_task s t.id with
    | some tw =>
      if tw.status = TW_STATUS_COMPLETED ∧ t.checked ≠ 1 then
        (s, PropEvent.close t.id :: (close_todoist_tasks s ts).2)
      else close_todoist_tasks s ts
    | none => close_todoist_tasks s ts

/-- The condition under which the Completion Propagator issues a remote
close for a task (spec formulation, for comparison with the loop). -/
def should_close_remote (s : Store) (t : RTask) : Bool :=
  match get_task s t.id with
  | some tw => decide (tw.status = TW_STATUS_COMPLETED) && decide (t.checked ≠ 1)
  | none => false

/-- The command alphabet of `add_task_interactive` in cli.py; editing
commands carry the operator's validated prompt reply. -/
inductive ICmd
  | yes
  | no
  | quit
  | help
  | editName (reply : String)
  | editTags (reply : String)
  | editProject (reply : String)
  | editPriority (reply : String)
  | editRecur (reply : String)
deriving Repr, DecidableEq

/-- The callback table of `add_task_interactive`: how each non-exiting
command rewrites the in-memory payload (`y`, `n`, `q` leave it alone;
`?` echoes help and returns it unchanged). -/
def apply_cmd (d : TwData) : ICmd → TwData
  | ICmd.editName r => { d with name := r.trim }
  | ICmd.editTags r => { d with tags := r.splitOn " " }
  | ICmd.editProject r => { d with project := r }
  | ICmd.editPriority r => { d with priority := r }
  | ICmd.editRecur r => { d with recur := some r }
  | _ => d

/-- Whether a command is an editing or help command (one that keeps the
prompt loop running). -/
def IsEdit : ICmd → Bool
  | ICmd.yes => false
  | ICmd.no => false
  | ICmd.quit => false
  | _ => true

/-- Outcome of one `add_task_interactive` prompt loop. -/
inductive LoopResult
  | accepted (d : TwData)
  | skipped
  | aborted (code : Nat)
  | blocked
deriving Repr, DecidableEq

/-- The `while response not in ('y', 'n')` loop of `add_task_interactive`
in cli.py, driven by the script of operator responses: `y` accepts the
current payload, `n` skips, `q` calls `exit(1)`, every other command
rewrites the payload and re-presents it. An exhausted script models the
loop blocking forever on operator input. -/
def add_task_interactive : List ICmd → TwData → LoopResult
  | [], _ => LoopResult.blocked
  | c :: rest, d =>
    match c with
    | ICmd.yes => LoopResult.accepted d
    | ICmd.no => LoopResult.skipped
    | ICmd.quit => LoopResult.aborted 1
    | c => add_task_interactive rest (apply_cmd d c)

/-- The interactive migration run: each payload is offered to
`add_task_interactive`; an accepted payload is added, a skipped one is
not, and the `exit(1)` of the abort command propagates uncaught,
terminating the whole run with the already-committed store. `none` means
the run never finishes (the loop blocked on input). -/
def interactive_run : List (TwData × List ICmd) → Store → Option (Store × Option Nat)
  | [], s => some (s, none)
  | (d, script) :: rest, s =>
    match add_task_interactive script d with
    | LoopResult.accepted d2 => interactive_run rest (add_task s d2)
    | LoopResult.skipped => interactive_run rest s
    | LoopResult.aborted code => some (s, some code)
    | LoopResult.blocked => none

/-- The at-most-one-mapping invariant: no Todoist id is carried as
foreign key by two LocalTasks. -/
def AtMostOneMapping (s : Store) : Prop :=
  ∀ tid : Nat, (s.filter (fun tw => tw.todoist_id == some tid)).length ≤ 1

/-- One store entry evolves into another when at most its status was
transitioned to completed; every other field is preserved. -/
def Completes (a b : LocalTask) : Prop :=
  b = a ∨ b = { a with status := TW_STATUS_COMPLETED }

/-- A store evolves into another when it has the same tasks in the same
positions, each evolved pointwise. -/
def Evolves (s s' : Store) : Prop :=
  List.Forall₂ Completes s s'

/-- The ancestor chain of a project, names collected root first (the
formulation of the claim, to be compared with the source's loop). -/
def ancestor_projects (projects : Nat → Option Project) :
    Nat → Project → Option (List Project)
  | 0, _ => none
  | fuel + 1, p =>
    match p.parent_id with
    | none => some [p]
    | some pid =>
      match projects pid with
      | none => none
      | some q => (ancestor_projects projects fuel q).map (fun l => l ++ [p])



/-- A concrete environment with empty collaborator caches. -/
def env0 : Env :=
  { projects := fun _ => none
    labels := fun _ => ""
    translate := fun _ => none
    promptReply := none
    fuel := 0 }

/-- A concrete mapped pending TaskWarrior task carrying foreign key 3. -/
def twA : LocalTask :=
  { tw_id := 1, description := "a", project := "", tags := [], priority := "",
    entry := "", due := none, recur := none, status := "pending",
    todoist_id := some 3 }

/-- `twA` once completed. -/
def twAdone : LocalTask :=
  { tw_id := 1, description := "a", project := "", tags := [], priority := "",
    entry := "", due := none, recur := none, status := "completed",
    todoist_id := some 3 }

/-- A concrete checked Todoist task mapped to `twA`. -/
def tA : RTask :=
  { id := 3, content := "a", project_id := 0, priority := 1, labels := [],
    date_added := "d", due := none, checked := 1 }

/-- A concrete checked Todoist task with no mapped TaskWarrior task. -/
def t2c : RTask :=
  { id := 1, content := "x", project_id := 0, priority := 1, labels := [],
    date_added := "d", due := none, checked := 1 }

/-- A concrete unchecked Todoist task with no mapped TaskWarrior task. -/
def t10 : RTask :=
  { id := 2, content := "y", project_id := 0, priority := 1, labels := [],
    date_added := "d", due := none, checked := 0 }

/-- A concrete mapped pending TaskWarrior task whose description differs
from its Todoist counterpart. -/
def tw4 : LocalTask :=
  { tw_id := 1, description := "old", project := "", tags := [], priority := "",
    entry := "", due := none, recur := none, status := "pending",
    todoist_id := some 7 }

/-- The unchecked Todoist counterpart of `tw4`, renamed remotely. -/
def t4 : RTask :=
  { id := 7, content := "new", project_id := 0, priority := 1, labels := [],
    date_added := "d", due := none, checked := 0 }

/-- A concrete label cache: label 1 is urgent, every other id is home. -/
def labels5 : Nat → String := fun lid => if lid = 1 then "urgent" else "home"

/-- A concrete Todoist task carrying labels urgent and home. -/
def t5 : RTask :=
  { id := 5, content := "c", project_id := 0, priority := 1, labels := [1, 2],
    date_added := "d", due := none, checked := 0 }

/-- The tag mapping table sending home to the empty string. -/
def mt5 : MapTable := [("home", "")]

/-- The environment for the tag-mapping counterexample. -/
def env5 : Env :=
  { projects := fun _ => none
    labels := labels5
    translate := fun _ => none
    promptReply := none
    fuel := 1 }

/-- The payload `map_to_tw` produces for `t5` under `mt5`: the tag mapped
to the empty string is kept, not discarded. -/
def data5 : TwData :=
  { tid := 5, name := "c", project := "", priority := "", entry := "d",
    due := none, recur := none, tags := ["urgent", ""] }

/-- A concrete two-level project cache: Errands below Work. -/
def projectsW : Nat → Option Project := fun pid =>
  if pid = 1 then some { name := "Work", parent_id := none }
  else if pid = 2 then some { name := "Errands", parent_id := some 1 }
  else none

/-- The Work project record. -/
def projWork : Project := { name := "Work", parent_id := none }

/-- The Errands project record, child of Work. -/
def projErrands : Project := { name := "Errands", parent_id := some 1 }

/-- A concrete completed TaskWarrior task carrying foreign key 9. -/
def tw7 : LocalTask :=
  { tw_id := 1, description := "w", project := "", tags := [], priority := "",
    entry := "", due := none, recur := none, status := "completed",
    todoist_id := some 9 }

/-- The unchecked Todoist counterpart of `tw7`. -/
def t7 : RTask :=
  { id := 9, content := "w", project_id := 0, priority := 1, labels := [],
    date_added := "d", due := none, checked := 0 }

/-- A concrete due specification with a recurrence no destination grammar
accepts in the counterexample environment. -/
def due8 : Due := { string := "every workday", date := "dd", is_recurring := true }

/-- A concrete creation payload for the interactive loop. -/
def d9 : TwData :=
  { tid := 9, name := "n", project := "p", priority := "", entry := "e",
    due := none, recur := none, tags := [] }

/-- `Completes` preserves the foreign key. -/
theorem Completes.todoist_id_eq {a b : LocalTask} (h : Completes a b) :
    b.todoist_id = a.todoist_id := by
  cases h with
  | inl h => rw [h]
  | inr h => rw [h]

/-- `Completes` is reflexive. -/
theorem Completes.refl (a : LocalTask) : Completes a a := Or.inl rfl

/-- `Completes` is transitive. -/
theorem Completes.trans {a b c : LocalTask} (h1 : Completes a b)
    (h2 : Completes b c) : Completes a c := by
  cases h1 with
  | inl h1 => subst h1; exact h2
  | inr h1 =>
    subst h1
    cases h2 with
    | inl h2 => exact Or.inr h2
    | inr h2 => exact Or.inr h2

/-- A store evolves into itself. -/
theorem evolves_refl (s : Store) : Evolves s s :=
  List.forall₂_same.mpr (fun a _ => Completes.refl a)

/-- `Evolves` is transitive. -/
theorem evolves_trans {s1 s2 s3 : Store} (h1 : Evolves s1 s2)
    (h2 : Evolves s2 s3) : Evolves s1 s3 := by
  induction h1 generalizing s3 with
  | nil => cases h2; exact List.Forall₂.nil
  | cons hab h1 ih =>
    cases h2 with
    | cons hbc h2 => exact List.Forall₂.cons (hab.trans hbc) (ih h2)

/-- Marking a task done only evolves the store. -/
theorem evolves_task_done (s : Store) (twid : Nat) :
    Evolves s (task_done s twid) := by
  induction s with
  | nil => exact List.Forall₂.nil
  | cons a s ih =>
    simp only [task_done, List.map_cons]
    refine List.Forall₂.cons ?_ ih
    by_cases h : a.tw_id = twid
    · exact Or.inr (by simp [h])
    · exact Or.inl (by simp [h])

/-- `close_if_needed` only evolves the store. -/
theorem evolves_close_if_needed (s : Store) (tw : LocalTask) (t : RTask) :
    Evolves s (close_if_needed s tw t).1 := by
  unfold close_if_needed
  split
  · exact evolves_task_done s tw.tw_id
  · exact evolves_refl s

/-- Unfolding `get_task` on a cons cell. -/
theorem get_task_cons (a : LocalTask) (l : Store) (tid : Nat) :
    get_task (a :: l) tid
      = if (a.todoist_id == some tid) = true then some a else get_task l tid := by
  simp only [get_task, List.find?]
  cases hpa : a.todoist_id == some tid
  · simp
  · simp

/-- Looking a foreign key up in an evolved store: an absent key stays
absent, a found task is found evolved. -/
theorem evolves_get_task {s s' : Store} (h : Evolves s s') (tid : Nat) :
    (get_task s tid = none → get_task s' tid = none) ∧
    (∀ tw, get_task s tid = some tw →
      ∃ tw', get_task s' tid = some tw' ∧ Completes tw tw') := by
  induction h with
  | nil => exact ⟨fun _ => rfl, fun tw h => by simp [get_task] at h⟩
  | @cons a b l l' hab h ih =>
    have hpb : (b.todoist_id == some tid) = (a.todoist_id == some tid) := by
      rw [Completes.todoist_id_eq hab]
    by_cases pa : (a.todoist_id == some tid) = true
    · refine ⟨?_, ?_⟩
      · intro hn
        rw [get_task_cons, if_pos pa] at hn
        exact absurd hn (by simp)
      · intro tw htw
        rw [get_task_cons, if_pos pa] at htw
        obtain rfl : a = tw := by injection htw
        exact ⟨b, by rw [get_task_cons, hpb, if_pos pa], hab⟩
    · refine ⟨?_, ?_⟩
      · intro hn
        rw [get_task_cons, if_neg pa] at hn
        rw [get_task_cons, hpb, if_neg pa]
        exact ih.1 hn
      · intro tw htw
        rw [get_task_cons, if_neg pa] at htw
        obtain ⟨tw2, h1, h2⟩ := ih.2 tw htw
        refine ⟨tw2, ?_, h2⟩
        rw [get_task_cons, hpb, if_neg pa]
        exact h1


/-- After `task_done` on the found task's id, the foreign-key lookup finds
the completed version of the task. -/
theorem get_task_task_done {s : Store} {tid : Nat} {tw : LocalTask}
    (h : get_task s tid = some tw) :
    get_task (task_done s tw.tw_id) tid
      = some { tw with status := TW_STATUS_COMPLETED } := by
  induction s with
  | nil => simp [get_task] at h
  | cons a s ih =>
    by_cases pa : (a.todoist_id == some tid) = true
    · rw [get_task_cons, if_pos pa] at h
      obtain rfl : a = tw := by injection h
      simp [task_done, get_task_cons, pa]
    · rw [get_task_cons, if_neg pa] at h
      have ihh := ih h
      simp only [task_done, List.map_cons]
      rw [get_task_cons]
      have hid : ((if a.tw_id = tw.tw_id then { a with status := TW_STATUS_COMPLETED }
          else a).todoist_id == some tid) = (a.todoist_id == some tid) := by
        by_cases hw : a.tw_id = tw.tw_id
        · rw [if_pos hw]
        · rw [if_neg hw]
      rw [hid, if_neg pa]
      exact ihh

/-- An evolved store carries each foreign key the same number of times. -/
theorem evolves_filter_count {s s' : Store} (h : Evolves s s') (tid : Nat) :
    (s'.filter (fun tw => tw.todoist_id == some tid)).length
      = (s.filter (fun tw => tw.todoist_id == some tid)).length := by
  induction h with
  | nil => rfl
  | @cons a b l l' hab h ih =>
    simp only [List.filter_cons]
    rw [Completes.todoist_id_eq hab]
    split
    · simp only [List.length_cons, ih]
    · exact ih

/-- A migrate run hitting an unmapped task stops there with a TypeError,
keeping the store: the payload call supplies one positional argument where
the `def` of `map_to_tw` requires three. -/
theorem migrateRun_unmapped (env : Env) (mp mt : MapTable) (t : RTask)
    (ts : List RTask) (s : Store) (h : get_task s t.id = none) :
    migrateRun env mp mt (t :: ts) s = (s, some RunErr.typeError) := by
  simp only [migrateRun, h, pyCall, migrate_callArgCount, map_to_tw_paramCount]
  norm_num

/-- A migrate run only evolves the store: every task keeps its position,
foreign key and fields, save for status transitions to completed. -/
theorem evolves_migrateRun (env : Env) (mp mt : MapTable) :
    ∀ (ts : List RTask) (s : Store), Evolves s (migrateRun env mp mt ts s).1 := by
  intro ts
  induction ts with
  | nil => intro s; exact evolves_refl s
  | cons t ts ih =>
    intro s
    rcases hgt : get_task s t.id with _ | tw
    · rw [migrateRun_unmapped env mp mt t ts s hgt]
      exact evolves_refl s
    · simp only [migrateRun, hgt]
      exact evolves_trans (evolves_close_if_needed s tw t) (ih _)

/-- Running migrate on the store a migrate run produced changes nothing
and reports the same outcome. -/
theorem migrateRun_idem (env : Env) (mp mt : MapTable) :
    ∀ (ts : List RTask) (s s2 : Store) (e : Option RunErr),
      migrateRun env mp mt ts s = (s2, e) → migrateRun env mp mt ts s2 = (s2, e) := by
  intro ts
  induction ts with
  | nil =>
    intro s s2 e h
    simp only [migrateRun] at h ⊢
    injection h with h1 h2
    subst h1; subst h2
    rfl
  | cons t ts ih =>
    intro s s2 e h
    rcases hgt : get_task s t.id with _ | tw
    · rw [migrateRun_unmapped env mp mt t ts s hgt] at h
      injection h with h1 h2
      subst h1; subst h2
      exact migrateRun_unmapped env mp mt t ts s hgt
    · simp only [migrateRun, hgt] at h
      have hev1 : Evolves s (close_if_needed s tw t).1 := evolves_close_if_needed s tw t
      have hev2 : Evolves (close_if_needed s tw t).1 s2 := by
        have := evolves_migrateRun env mp mt ts (close_if_needed s tw t).1
        rw [h] at this
        exact this
      have hev : Evolves s s2 := evolves_trans hev1 hev2
      obtain ⟨tw2, hgt2, hc2⟩ := (evolves_get_task hev t.id).2 tw hgt
      simp only [migrateRun, hgt2]
      have hnoop : (close_if_needed s2 tw2 t).1 = s2 := by
        by_cases hcond : t.checked = 1 ∧ tw2.status = TW_STATUS_PENDING
        · exfalso
          by_cases h1 : t.checked = 1 ∧ tw.status = TW_STATUS_PENDING
          · have hs1 : (close_if_needed s tw t).1 = task_done s tw.tw_id := by
              simp [close_if_needed, if_pos h1]
            have hfound : get_task (close_if_needed s tw t).1 t.id
                = some { tw with status := TW_STATUS_COMPLETED } := by
              rw [hs1]; exact get_task_task_done hgt
            obtain ⟨tw3, hgt3, hc3⟩ := (evolves_get_task hev2 t.id).2 _ hfound
            rw [hgt2] at hgt3
            obtain rfl : tw2 = tw3 := by injection hgt3
            have : tw2.status = TW_STATUS_COMPLETED := by
              cases hc3 with
              | inl h => rw [h]
              | inr h => rw [h]
            rw [hcond.2] at this
            exact absurd this (by decide)
          · have htw : tw.status ≠ TW_STATUS_PENDING := by
              intro hp
              exact h1 ⟨hcond.1, hp⟩
            cases hc2 with
            | inl hh => rw [hh] at hcond; exact htw hcond.2
            | inr hh =>
              rw [hh] at hcond
              have : TW_STATUS_COMPLETED = TW_STATUS_PENDING := hcond.2
              exact absurd this (by decide)
        · simp [close_if_needed, if_neg hcond]
      rw [hnoop]
      by_cases h1 : t.checked = 1 ∧ tw.status = TW_STATUS_PENDING
      · exact ih _ _ _ h
      · have hs1 : (close_if_needed s tw t).1 = s := by
          simp [close_if_needed, if_neg h1]
        rw [hs1] at h
        exact ih _ _ _ h


/-- C1: for every RemoteTask identifier, after any number of migrate runs
over an unchanged remote task set at most one LocalTask carries it as its
`todoist_id` foreign key (the invariant is preserved by each run, which
never inserts a task), and a second run over the store a run produced
performs no LocalTask mutation at all and reports the same outcome:
migrate composed with itself equals migrate. -/
theorem migrate_at_most_one_and_idempotent (env : Env) (mp mt : MapTable)
    (ts : List RTask) (s s2 : Store) (e : Option RunErr)
    (hone : AtMostOneMapping s)
    (hrun : migrateRun env mp mt ts s = (s2, e)) :
    AtMostOneMapping s2 ∧ migrateRun env mp mt ts s2 = (s2, e) := by
  constructor
  · intro tid
    have hev : Evolves s s2 := by
      have h := evolves_migrateRun env mp mt ts s
      rw [hrun] at h
      exact h
    rw [evolves_filter_count hev tid]
    exact hone tid
  · exact migrateRun_idem env mp mt ts s s2 e hrun

/-- C1 witness: a store holding the single mapped task `twAdone` and the
unchanged remote task `tA`; the invariant holds afterwards and the second
run is a no-op. -/
theorem migrate_at_most_one_and_idempotent_witness :
    AtMostOneMapping [twAdone]
    ∧ migrateRun env0 [] [] [tA] [twAdone] = ([twAdone], none) :=
  migrate_at_most_one_and_idempotent env0 [] [] [tA] [twA] [twAdone] none
    (fun _ => List.length_filter_le _ _) rfl

/-- C2 counterexample: the checked Todoist task `t2c` has no mapped
LocalTask, yet migrating it creates nothing: the run dies with a
TypeError at the `map_to_tw(task)` call, so no LocalTask carrying its
identifier ever exists, refuting create-then-close. -/
theorem unmapped_completed_counterexample :
    t2c.checked = 1
    ∧ get_task [] t2c.id = none
    ∧ migrateRun env0 [] [] [t2c] [] = ([], some RunErr.typeError)
    ∧ ((migrateRun env0 [] [] [t2c] []).1.filter
        (fun tw => tw.todoist_id == some t2c.id)).length = 0 :=
  ⟨rfl, rfl, rfl, rfl⟩

/-- C2 amended: for every RemoteTask that is completed and Unmapped, the
migrate run terminates at that task with a TypeError raised by the
under-applied Field Mapper call; no LocalTask is created and none is
closed (the store is returned unchanged). -/
theorem unmapped_completed_amended (env : Env) (mp mt : MapTable)
    (t : RTask) (ts : List RTask) (s : Store)
    (hun : get_task s t.id = none) (hch : t.checked = 1) :
    migrateRun env mp mt (t :: ts) s = (s, some RunErr.typeError) :=
  migrateRun_unmapped env mp mt t ts s hun

/-- C2 witness: the amended behaviour at the concrete task `t2c`. -/
theorem unmapped_completed_amended_witness :
    get_task [] t2c.id = none ∧ t2c.checked = 1
    ∧ migrateRun env0 [] [] [t2c] [] = ([], some RunErr.typeError) :=
  ⟨rfl, rfl, unmapped_completed_amended env0 [] [] t2c [] [] rfl rfl⟩

/-- C10: the create path of migrate is unreachable without error: the
`def` of `map_to_tw` requires three positional parameters but the call in
`migrate` supplies only the task, so for every unmapped RemoteTask the
call raises TypeError before any LocalTask creation occurs, leaving the
store as it was. -/
theorem create_path_unreachable (env : Env) (mp mt : MapTable)
    (t : RTask) (ts : List RTask) (s : Store)
    (hun : get_task s t.id = none) :
    migrate_callArgCount ≠ map_to_tw_paramCount
    ∧ migrateRun env mp mt (t :: ts) s = (s, some RunErr.typeError) :=
  ⟨by decide, migrateRun_unmapped env mp mt t ts s hun⟩

/-- C10 witness: the arity failure at the concrete unmapped task `t10`. -/
theorem create_path_unreachable_witness :
    get_task [] t10.id = none
    ∧ migrateRun env0 [] [] [t10] [] = ([], some RunErr.typeError) :=
  ⟨rfl, (create_path_unreachable env0 [] [] t10 [] [] rfl).2⟩


/-- C3: for a RemoteTask with a mapped LocalTask, the migrate pass closes
the LocalTask iff the RemoteTask is checked and the LocalTask pending; the
pass performs nothing besides `close_if_needed` for a mapped task, which
at most transitions statuses to completed and touches no other field (so a
closed task receives no field updates in the same pass); a LocalTask
already completed is never acted on, whatever the RemoteTask's state. -/
theorem mapped_close_iff (env : Env) (mp mt : MapTable) (t : RTask)
    (ts : List RTask) (s : Store) (tw : LocalTask)
    (hfound : get_task s t.id = some tw) :
    ((close_if_needed s tw t).2 = true ↔
      t.checked = 1 ∧ tw.status = TW_STATUS_PENDING)
    ∧ Evolves s (close_if_needed s tw t).1
    ∧ migrateRun env mp mt (t :: ts) s
        = migrateRun env mp mt ts (close_if_needed s tw t).1
    ∧ (tw.status = TW_STATUS_COMPLETED → close_if_needed s tw t = (s, false)) := by
  refine ⟨?_, evolves_close_if_needed s tw t, ?_, ?_⟩
  · unfold close_if_needed
    by_cases hcond : t.checked = 1 ∧ tw.status = TW_STATUS_PENDING
    · simp [if_pos hcond, hcond]
    · simp [if_neg hcond, hcond]
  · simp only [migrateRun, hfound]
  · intro hcomp
    have hno : ¬ (t.checked = 1 ∧ tw.status = TW_STATUS_PENDING) := by
      rintro ⟨-, hp⟩
      rw [hcomp] at hp
      exact absurd hp (by decide)
    simp [close_if_needed, if_neg hno]

/-- C3 witness: the mapped pending task `twA` whose remote counterpart
`tA` is checked is closed. -/
theorem mapped_close_iff_witness :
    get_task [twA] tA.id = some twA
    ∧ (close_if_needed [twA] twA tA).2 = true :=
  ⟨rfl, ((mapped_close_iff env0 [] [] tA [] [twA] twA rfl).1).mpr ⟨rfl, rfl⟩⟩

/-- C4 counterexample: `tw4` is mapped to `t4`, pending, the remote task
is not completed and its content differs from the local description, yet
the migrate pass leaves the store exactly unchanged: no description, due
or project overwrite happens. -/
theorem mapped_update_counterexample :
    get_task [tw4] t4.id = some tw4
    ∧ tw4.status = TW_STATUS_PENDING
    ∧ t4.checked ≠ 1
    ∧ tw4.description ≠ t4.content
    ∧ migrateRun env0 [] [] [t4] [tw4] = ([tw4], none) :=
  ⟨rfl, rfl, by decide, by decide, rfl⟩

/-- C4 amended: for every RemoteTask whose mapped LocalTask is pending and
which is not completed remotely, the migrate pass performs no field update
at all: it continues on the unchanged store. The gateway update operation
(defined in gateways.py but never invoked by migrate) is the one that
overwrites exactly description, due date and project while preserving
priority, tags, recurrence, entry date and status. -/
theorem mapped_pending_no_update_and_update_frame (env : Env)
    (mp mt : MapTable) (t : RTask) (ts : List RTask) (s : Store)
    (tw : LocalTask) (hfound : get_task s t.id = some tw)
    (hpend : tw.status = TW_STATUS_PENDING) (hnc : t.checked ≠ 1) :
    migrateRun env mp mt (t :: ts) s = migrateRun env mp mt ts s
    ∧ ∀ (task : LocalTask) (data : UpdateData),
        (TW_update task data).description = data.description
        ∧ (TW_update task data).due = data.due
        ∧ (TW_update task data).project = data.project
        ∧ (TW_update task data).priority = task.priority
        ∧ (TW_update task data).tags = task.tags
        ∧ (TW_update task data).recur = task.recur
        ∧ (TW_update task data).entry = task.entry
        ∧ (TW_update task data).status = task.status := by
  constructor
  · have hno : ¬ (t.checked = 1 ∧ tw.status = TW_STATUS_PENDING) :=
      fun hc => hnc hc.1
    simp only [migrateRun, hfound, close_if_needed, if_neg hno]
  · intro task data
    exact ⟨rfl, rfl, rfl, rfl, rfl, rfl, rfl, rfl⟩

/-- C4 witness: the amended behaviour at the concrete pair `t4`, `tw4`. -/
theorem mapped_pending_no_update_witness :
    get_task [tw4] t4.id = some tw4
    ∧ tw4.status = TW_STATUS_PENDING
    ∧ t4.checked ≠ 1
    ∧ migrateRun env0 [] [] [t4] [tw4] = migrateRun env0 [] [] [] [tw4] :=
  ⟨rfl, rfl, by decide,
    (mapped_pending_no_update_and_update_frame env0 [] [] t4 [] [tw4] tw4
      rfl rfl (by decide)).1⟩


/-- C5 counterexample: labels urgent and home with the mapping sending
home to the empty string: the Field Mapper yields tags ["urgent", ""] —
the empty-mapped tag is kept, not discarded — refuting the claimed
["urgent"]. -/
theorem tag_discard_counterexample :
    map_to_tw env5 [] mt5 t5 = Except.ok data5
    ∧ data5.tags = ["urgent", ""]
    ∧ data5.tags ≠ ["urgent"] :=
  ⟨rfl, rfl, by decide⟩

/-- C5 amended: the Field Mapper's tag list resolves each label id to its
display name in source label order and applies the tag-mapping table by
exact string match, but tags whose mapped value is empty are NOT
discarded: the list always has one entry per label. -/
theorem tags_resolution_no_discard (env : Env) (mp mt : MapTable)
    (t : RTask) (d : TwData)
    (h : map_to_tw env mp mt t = Except.ok d) :
    d.tags = t.labels.map (fun lid => try_map mt (env.labels lid))
    ∧ d.tags.length = t.labels.length := by
  unfold map_to_tw at h
  rcases hp : project_name_from_todoist env.projects env.fuel mp t.project_id with _ | pname
  · rw [hp] at h
    exact Except.noConfusion h
  · rw [hp] at h
    rcases hr : parse_recur_or_prompt env.translate env.promptReply t.due with e | r
    · rw [hr] at h
      exact Except.noConfusion h
    · rw [hr] at h
      injection h with h2
      subst h2
      exact ⟨rfl, by simp [map_to_tw_tags]⟩

/-- C5 witness: the amended behaviour at the concrete task `t5`. -/
theorem tags_resolution_no_discard_witness :
    map_to_tw env5 [] mt5 t5 = Except.ok data5
    ∧ data5.tags = t5.labels.map (fun lid => try_map mt5 (env5.labels lid))
    ∧ data5.tags.length = t5.labels.length :=
  ⟨rfl, (tags_resolution_no_discard env5 [] mt5 t5 data5 rfl).1,
    (tags_resolution_no_discard env5 [] mt5 t5 data5 rfl).2⟩

/-- The source's front-insertion hierarchy loop computes the root-first
ancestor chain followed by whatever was already accumulated. -/
theorem hierarchy_loop_eq_ancestors (projects : Nat → Option Project) :
    ∀ (fuel : Nat) (p : Project) (acc anc : List Project),
      ancestor_projects projects fuel p = some anc →
      hierarchy_loop projects fuel p (p :: acc) = some (anc ++ acc) := by
  intro fuel
  induction fuel with
  | zero => intro p acc anc h; exact Option.noConfusion h
  | succ fuel ih =>
    intro p acc anc h
    rcases hpar : p.parent_id with _ | pid
    · simp only [ancestor_projects, hpar] at h
      injection h with h1
      subst h1
      simp [hierarchy_loop, hpar]
    · rcases hq : projects pid with _ | q
      · simp only [ancestor_projects, hpar, hq] at h
        exact Option.noConfusion h
      · simp only [ancestor_projects, hpar, hq] at h
        rcases ha : ancestor_projects projects fuel q with _ | ancq
        · rw [ha] at h
          exact Option.noConfusion h
        · rw [ha] at h
          simp only [Option.map] at h
          injection h with h1
          subst h1
          simp only [hierarchy_loop, hpar, hq]
          rw [ih q (p :: acc) ancq ha]
          simp

/-- C6: for a RemoteTask whose project resolves and whose ancestor chain
terminates, the derived project path is the names of the chain collected
root-first joined with a period, after which the project-mapping table is
applied by exact match to the full joined path (never per segment); an
unresolvable project yields the empty path. -/
theorem project_path_correct (projects : Nat → Option Project) (fuel : Nat)
    (mp : MapTable) (pid : Nat) :
    (∀ p anc, projects pid = some p →
      ancestor_projects projects fuel p = some anc →
      project_name_from_todoist projects fuel mp pid
        = some (try_map mp (String.intercalate "." (anc.map Project.name))))
    ∧ (projects pid = none →
      project_name_from_todoist projects fuel mp pid = some "") := by
  constructor
  · intro p anc hp ha
    have hl : hierarchy_loop projects fuel p [p] = some anc := by
      have h := hierarchy_loop_eq_ancestors projects fuel p [] anc ha
      simpa using h
    simp only [project_name_from_todoist, hp, hl]
  · intro hnone
    simp only [project_name_from_todoist, hnone]

/-- C6 witness: the chain Work, Errands with no mapping yields the joined
path Work.Errands. -/
theorem project_path_correct_witness :
    projectsW 2 = some projErrands
    ∧ ancestor_projects projectsW 5 projErrands = some [projWork, projErrands]
    ∧ project_name_from_todoist projectsW 5 [] 2 = some "Work.Errands" := by
  refine ⟨rfl, rfl, ?_⟩
  have h := (project_path_correct projectsW 5 [] 2).1 projErrands
    [projWork, projErrands] rfl rfl
  exact h.trans (by decide)


/-- C7: the Completion Propagator issues a remote close for a RemoteTask
iff a LocalTask carrying its identifier exists, is completed, and the
RemoteTask is not yet checked; the remote event trace is the close events
in task order followed by exactly one commit and one cache refresh
(batched after the whole iteration, not per task); the LocalTask store is
returned untouched. -/
theorem propagator_batched (s : Store) (ts : List RTask) :
    (close_todoist_tasks s ts).1 = s
    ∧ (close_todoist_tasks s ts).2
        = (ts.filter (should_close_remote s)).map (fun t => PropEvent.close t.id)
          ++ [PropEvent.commit, PropEvent.sync]
    ∧ ∀ t : RTask, should_close_remote s t = true ↔
        ∃ tw, get_task s t.id = some tw ∧ tw.status = TW_STATUS_COMPLETED
          ∧ t.checked ≠ 1 := by
  refine ⟨?_, ?_, ?_⟩
  · induction ts with
    | nil => rfl
    | cons t ts ih =>
      rcases hgt : get_task s t.id with _ | tw
      · simp only [close_todoist_tasks, hgt]
        exact ih
      · by_cases hcond : tw.status = TW_STATUS_COMPLETED ∧ t.checked ≠ 1
        · simp only [close_todoist_tasks, hgt, if_pos hcond]
        · simp only [close_todoist_tasks, hgt, if_neg hcond]
          exact ih
  · induction ts with
    | nil => rfl
    | cons t ts ih =>
      rcases hgt : get_task s t.id with _ | tw
      · have hb : should_close_remote s t = false := by
          simp [should_close_remote, hgt]
        simp only [close_todoist_tasks, hgt, List.filter_cons, hb]
        simpa using ih
      · by_cases hcond : tw.status = TW_STATUS_COMPLETED ∧ t.checked ≠ 1
        · have hb : should_close_remote s t = true := by
            simp [should_close_remote, hgt, hcond.1, hcond.2]
          simp only [close_todoist_tasks, hgt, if_pos hcond, List.filter_cons, hb,
            if_pos, List.map_cons, List.cons_append]
          simpa using ih
        · have hb : should_close_remote s t = false := by
            simp only [should_close_remote, hgt]
            rcases Decidable.not_and_iff_or_not.mp hcond with hx | hx
            · simp [hx]
            · simp [hx]
          simp only [close_todoist_tasks, hgt, if_neg hcond, List.filter_cons, hb]
          simpa using ih
  · intro t
    rcases hgt : get_task s t.id with _ | tw
    · simp [should_close_remote, hgt]
    · simp [should_close_remote, hgt]

/-- C7 witness: the condition holds at the completed local task `tw7`
with unchecked remote counterpart `t7`, and the store is untouched. -/
theorem propagator_batched_witness :
    (close_todoist_tasks [tw7] [t7]).1 = [tw7]
    ∧ should_close_remote [tw7] t7 = true :=
  ⟨(propagator_batched [tw7] [t7]).1,
    ((propagator_batched [tw7] [t7]).2.2 t7).mpr ⟨tw7, rfl, rfl, by decide⟩⟩

/-- C8: when parsing a due specification whose recurrence cannot be
expressed in the destination grammar, `parse_recur` signals
UnsupportedRecurrence; `parse_recur_or_prompt` recovers it through the
interactive prompt, returning the operator's replacement value, and when
no interactive context is available the error surfaces as a fatal error
rather than being silently dropped. -/
theorem unsupported_recurrence_handling (translate : String → Option String)
    (promptReply : Option String) (due : Option Due)
    (h : parse_recur translate due = Except.error RecurErr.unsupportedRecurrence) :
    (∀ r, promptReply = some r →
      parse_recur_or_prompt translate promptReply due = Except.ok (some r))
    ∧ (promptReply = none →
      parse_recur_or_prompt translate promptReply due
        = Except.error MapErr.promptUnavailable) := by
  constructor
  · intro r hr
    simp [parse_recur_or_prompt, h, prompt_recur, hr]
  · intro hr
    simp [parse_recur_or_prompt, h, prompt_recur, hr]

/-- C8 witness: the due specification `due8` under an empty destination
grammar: recovery with the operator's reply, fatality without one. -/
theorem unsupported_recurrence_witness :
    parse_recur (fun _ => none) (some due8)
      = Except.error RecurErr.unsupportedRecurrence
    ∧ parse_recur_or_prompt (fun _ => none) (some "daily") (some due8)
      = Except.ok (some "daily")
    ∧ parse_recur_or_prompt (fun _ => none) none (some due8)
      = Except.error MapErr.promptUnavailable :=
  ⟨rfl,
    (unsupported_recurrence_handling (fun _ => none) (some "daily")
      (some due8) rfl).1 "daily" rfl,
    (unsupported_recurrence_handling (fun _ => none) none
      (some due8) rfl).2 rfl⟩

/-- A run of editing or help commands keeps the prompt loop going,
rewriting the payload by folding the callback table. -/
theorem add_task_interactive_edits (pre : List ICmd) :
    ∀ (d : TwData) (k : List ICmd), (∀ c ∈ pre, IsEdit c = true) →
      add_task_interactive (pre ++ k) d
        = add_task_interactive k (pre.foldl apply_cmd d) := by
  induction pre with
  | nil => intro d k _; rfl
  | cons c pre ih =>
    intro d k h
    have hc : IsEdit c = true := h c (List.mem_cons_self c pre)
    have hpre : ∀ c2 ∈ pre, IsEdit c2 = true :=
      fun c2 hc2 => h c2 (List.mem_cons_of_mem c hc2)
    cases c with
    | yes => simp [IsEdit] at hc
    | no => simp [IsEdit] at hc
    | quit => simp [IsEdit] at hc
    | help => exact ih _ k hpre
    | editName r => exact ih _ k hpre
    | editTags r => exact ih _ k hpre
    | editProject r => exact ih _ k hpre
    | editPriority r => exact ih _ k hpre
    | editRecur r => exact ih _ k hpre

/-- C9: the interactive override loop exits only on accept or skip: a
script of editing or help commands leaves it awaiting input with the
payload rewritten by the callback table; accept creates the task from the
possibly edited payload, skip creates nothing, and the abort command
terminates the entire run immediately with the non-zero exit code 1,
performing no mutation for the remaining tasks while the
already-committed store is kept. -/
theorem interactive_override_contract (pre : List ICmd) (d : TwData)
    (rest : List (TwData × List ICmd)) (s : Store)
    (hpre : ∀ c ∈ pre, IsEdit c = true) :
    add_task_interactive pre d = LoopResult.blocked
    ∧ add_task_interactive (pre ++ [ICmd.yes]) d
        = LoopResult.accepted (pre.foldl apply_cmd d)
    ∧ add_task_interactive (pre ++ [ICmd.no]) d = LoopResult.skipped
    ∧ interactive_run ((d, pre ++ [ICmd.yes]) :: rest) s
        = interactive_run rest (add_task s (pre.foldl apply_cmd d))
    ∧ interactive_run ((d, pre ++ [ICmd.no]) :: rest) s = interactive_run rest s
    ∧ interactive_run ((d, pre ++ [ICmd.quit]) :: rest) s = some (s, some 1)
    ∧ ∀ code, interactive_run ((d, pre ++ [ICmd.quit]) :: rest) s
        = some (s, some code) → code ≠ 0 := by
  have hy : add_task_interactive (pre ++ [ICmd.yes]) d
      = LoopResult.accepted (pre.foldl apply_cmd d) :=
    add_task_interactive_edits pre d [ICmd.yes] hpre
  have hn : add_task_interactive (pre ++ [ICmd.no]) d = LoopResult.skipped :=
    add_task_interactive_edits pre d [ICmd.no] hpre
  have hq : add_task_interactive (pre ++ [ICmd.quit]) d = LoopResult.aborted 1 :=
    add_task_interactive_edits pre d [ICmd.quit] hpre
  have h6 : interactive_run ((d, pre ++ [ICmd.quit]) :: rest) s
      = some (s, some 1) := by
    simp only [interactive_run, hq]
  refine ⟨?_, hy, hn, ?_, ?_, h6, ?_⟩
  · have h0 := add_task_interactive_edits pre d [] hpre
    simpa using h0
  · simp only [interactive_run, hy]
  · simp only [interactive_run, hn]
  · intro code hcode
    rw [h6] at hcode
    injection hcode with hcode1
    injection hcode1 with hcode2 hcode3
    injection hcode3 with hcode4
    omega

/-- C9 witness: a help command and an edit keep the loop running, and the
abort command ends the run with exit code 1 and the untouched store. -/
theorem interactive_override_witness :
    (∀ c ∈ [ICmd.help, ICmd.editName " x "], IsEdit c = true)
    ∧ interactive_run [(d9, [ICmd.help, ICmd.editName " x ", ICmd.quit])] []
      = some ([], some 1) :=
  ⟨by decide,
    (interactive_override_contract [ICmd.help, ICmd.editName " x "] d9 [] []
      (by decide)).2.2.2.2.2.1⟩

end TodoistTW
